import Mathlib

/-!
Verification development for scripts/generate_dev_icon.py.

The script reads square PNG icons and a JSON manifest, overlays a red
rounded-rectangle DEV badge on the bottom-right corner of each icon, and
writes badged icons plus a derived Contents.json manifest.

Modelling conventions, stated once here:
* JSON values are an inductive type; Python dicts produced by json.loads are
  association lists in insertion order with string keys.  json.loads collapses
  duplicate keys, so reachable dicts have pairwise distinct keys; the
  operations below are faithful on that domain.
* Fallible Python code (raising exceptions) is modelled with Except PyErr.
* Images are a width, a height and a pixel function; all images are modelled
  in RGBA, so copy().convert("RGBA") is the identity on the data.
* Python float expressions int(size * 0.22), int(size * 0.42),
  int(badge_h * 0.28), int(size * 0.04), int(badge_h * 0.65) are modelled as
  Nat floor division by 100.  This agrees with the IEEE-754 double
  computation for every argument below 10^15: the doubles nearest 0.22, 0.28
  and 0.04 exceed the exact decimals, so products whose exact value is an
  integer stay at or above it, while the double nearest 0.42 is below 0.42 by
  less than 2^-55 times its scale, so for n a multiple of 50 the product
  n * 0.42 still rounds to the exact integer 21 * n / 50; in every other case
  the exact fractional part is at least 1/50 away from the next integer,
  far beyond the accumulated rounding error.
* The font library (PIL.ImageFont / FreeType) and the system font files are
  external to the source; they enter the model as an explicit FontEnv
  argument carrying the outcome of each truetype load and the text metrics
  and rasteriser of each font.  Everything else is translated directly from
  the source.
-/

/-- JSON values with string object keys, as produced by json.loads.
Numbers are opaque to the script (it only copies them), so Int suffices. -/
inductive Json where
  | null : Json
  | bool (b : Bool) : Json
  | num (n : Int) : Json
  | str (s : String) : Json
  | arr (xs : List Json) : Json
  | obj (fields : List (String × Json)) : Json

/-- Python exception kinds raised by the script paths we model. -/
inductive PyErr where
  | osError
  | jsonDecodeError
  | keyError
  | typeError
  | valueError
  deriving Repr, DecidableEq

/-- Python dict subscript d[key]: the value at the first matching key. -/
def dictGet : List (String × Json) → String → Option Json
  | [], _ => none
  | (k0, v0) :: rest, key => if k0 = key then some v0 else dictGet rest key

/-- Python dict assignment d[key] = v: overwrite the first occurrence in
place (keeping its position), or append the new pair at the end.  Mirrors
CPython insertion-order semantics on dicts with distinct keys. -/
def dictSet : List (String × Json) → String → Json → List (String × Json)
  | [], key, v => [(key, v)]
  | (k0, v0) :: rest, key, v =>
    if k0 = key then (key, v) :: rest else (k0, v0) :: dictSet rest key v

/-- Python iteration over a JSON value: lists yield their elements, strings
yield their characters (as one-character strings), dicts yield their keys;
anything else raises TypeError. -/
def pyIter : Json → Except PyErr (List Json)
  | .arr xs => .ok xs
  | .str s => .ok (s.toList.map (fun c => .str (String.mk [c])))
  | .obj fields => .ok (fields.map (fun kv => .str kv.1))
  | _ => .error .typeError

/-- One key-value element for dict(): a sequence of length two whose first
component is a string.  Python additionally accepts non-string hashable
keys, which lie outside the JSON object model and are mapped to valueError;
no theorem exercises that corner. -/
def pyPair (e : Json) : Except PyErr (String × Json) :=
  match pyIter e with
  | .error _ => .error .typeError
  | .ok [.str k, v] => .ok (k, v)
  | .ok _ => .error .valueError

/-- Build a dict from key-value pairs: first occurrence fixes the position,
later occurrences overwrite the value. -/
def pyFromPairs (ps : List (String × Json)) : List (String × Json) :=
  ps.foldl (fun d kv => dictSet d kv.1 kv.2) []

/-- Python dict(entry): copy a mapping, or build a dict from an iterable of
key-value pairs; non-iterables raise TypeError. -/
def pyDict : Json → Except PyErr (List (String × Json))
  | .obj fields => .ok fields
  | j =>
    match pyIter j with
    | .error e => .error e
    | .ok elems =>
      match elems.mapM pyPair with
      | .error e => .error e
      | .ok ps => .ok (pyFromPairs ps)

/-- The fixed folder string written into every derived descriptor. -/
def DEV_FOLDER : String := "Assets.xcassets/AppIcon-Dev.appiconset/"

/-- The loop body of generate_contents_json: for each entry, dst_entry =
dict(entry); dst_entry["folder"] = DEV_FOLDER; append.  The first failing
entry raises, exactly as the Python loop does. -/
def badgeEntries : List Json → Except PyErr (List Json)
  | [] => .ok []
  | e :: rest =>
    match pyDict e with
    | .error err => .error err
    | .ok d =>
      match badgeEntries rest with
      | .error err => .error err
      | .ok rest2 => .ok (.obj (dictSet d "folder" (.str DEV_FOLDER)) :: rest2)

/-- generate_contents_json, lines 79 to 87 of the script.  The argument is
the parsed source Contents.json; none stands for a missing file or a JSON
decode failure of json.loads, both of which raise before the subscript.
Subscripting a non-object raises TypeError; a missing images key raises
KeyError; the result wraps the rewritten descriptors as the single key of a
fresh top-level object. -/
def generate_contents_json (contents : Option Json) : Except PyErr Json :=
  match contents with
  | none => .error .jsonDecodeError
  | some src =>
    match src with
    | .obj fields =>
      match dictGet fields "images" with
      | none => .error .keyError
      | some images =>
        match pyIter images with
        | .error e => .error e
        | .ok entries =>
          match badgeEntries entries with
          | .error e => .error e
          | .ok dst => .ok (.obj [("images", .arr dst)])
    | _ => .error .typeError

/-- Whether a parsed JSON value is an object carrying an images key. -/
def hasImagesKey : Json → Bool
  | .obj fields => (dictGet fields "images").isSome
  | _ => false

/-- Whether an Except value is an error, i.e. the Python code raised. -/
def isErr {α : Type} : Except PyErr α → Bool
  | .error _ => true
  | .ok _ => false

/-- Top-level keys of a JSON object. -/
def topKeys : Json → List String
  | .obj fields => fields.map Prod.fst
  | _ => []

/-- One RGBA pixel, channels in 0..255. -/
structure RGBA where
  r : ℕ
  g : ℕ
  b : ℕ
  a : ℕ
  deriving Repr, DecidableEq

/-- Pixel map of an image. -/
abbrev PxFun := ℕ → ℕ → RGBA

/-- A raster image: dimensions plus the pixel map.  All images are modelled
in RGBA mode. -/
structure ImageData where
  width : ℕ
  height : ℕ
  px : PxFun

/-- Badge height, line 32: max(int(size * 0.22), 6). -/
def badge_h (size : ℕ) : ℕ := max (size * 22 / 100) 6

/-- Badge width, line 33: max(int(size * 0.42), 12). -/
def badge_w (size : ℕ) : ℕ := max (size * 42 / 100) 12

/-- Corner radius, line 34: max(int(badge_h * 0.28), 2). -/
def radius (size : ℕ) : ℕ := max (badge_h size * 28 / 100) 2

/-- Margin, line 35: max(int(size * 0.04), 1). -/
def margin (size : ℕ) : ℕ := max (size * 4 / 100) 1

/-- Left edge of the badge rectangle, line 38: x1 = size - margin - badge_w.
Python integers may go negative at tiny sizes, so coordinates are Int. -/
def rectX1 (size : ℕ) : ℤ := (size : ℤ) - margin size - badge_w size

/-- Top edge of the badge rectangle, line 39: y1 = size - margin - badge_h. -/
def rectY1 (size : ℕ) : ℤ := (size : ℤ) - margin size - badge_h size

/-- Right edge of the badge rectangle, line 40: x2 = size - margin. -/
def rectX2 (size : ℕ) : ℤ := (size : ℤ) - margin size

/-- Bottom edge of the badge rectangle, line 41: y2 = size - margin. -/
def rectY2 (size : ℕ) : ℤ := (size : ℤ) - margin size

/-- Membership of a point in the rounded rectangle drawn by
draw.rounded_rectangle: inside the bounding box, and inside the central
cross or one of the four corner disks. -/
def inRoundedRect (x1 y1 x2 y2 r x y : ℤ) : Prop :=
  x1 ≤ x ∧ x ≤ x2 ∧ y1 ≤ y ∧ y ≤ y2 ∧
    ((x1 + r ≤ x ∧ x ≤ x2 - r) ∨ (y1 + r ≤ y ∧ y ≤ y2 - r) ∨
      (x - (x1 + r)) ^ 2 + (y - (y1 + r)) ^ 2 ≤ r ^ 2 ∨
      (x - (x2 - r)) ^ 2 + (y - (y1 + r)) ^ 2 ≤ r ^ 2 ∨
      (x - (x1 + r)) ^ 2 + (y - (y2 - r)) ^ 2 ≤ r ^ 2 ∨
      (x - (x2 - r)) ^ 2 + (y - (y2 - r)) ^ 2 ≤ r ^ 2)

instance (x1 y1 x2 y2 r x y : ℤ) : Decidable (inRoundedRect x1 y1 x2 y2 r x y) := by
  unfold inRoundedRect; infer_instance

/-- Badge fill colour, line 50: red with slight transparency. -/
def BADGE_FILL : RGBA := ⟨220, 38, 38, 230⟩

/-- Text fill colour, line 74: opaque white. -/
def TEXT_FILL : RGBA := ⟨255, 255, 255, 255⟩

/-- Text bounding box as returned by draw.textbbox at origin (0, 0). -/
structure TextBBox where
  x0 : ℤ
  y0 : ℤ
  x1 : ℤ
  y1 : ℤ

/-- A loaded font, as the script uses it: metrics for textbbox and a
rasteriser for draw.text.  Both come from the external font library and are
supplied by the environment; the rasteriser rewrites the pixel map of the
layer it draws on and cannot touch the layer dimensions, exactly like
draw.text. -/
structure Font where
  bbox : String → TextBBox
  raster : String → ℚ → ℚ → RGBA → PxFun → PxFun

/-- Exceptions caught by the two font fallback handlers, lines 58 and 63:
except (OSError, IOError).  These are the kinds truetype raises for an
unresolvable or unreadable font path. -/
inductive FontErr where
  | osError
  | ioError

/-- External font environment: the outcome of each ImageFont.truetype call
(indexed by the requested pixel size) and the built-in default font of
ImageFont.load_default, which always succeeds. -/
structure FontEnv where
  helvetica : ℕ → Except FontErr Font
  sfcompact : ℕ → Except FontErr Font
  defaultFont : Font

/-- Font size, line 54: max(int(badge_h * 0.65), 8). -/
def font_size (size : ℕ) : ℕ := max (badge_h size * 65 / 100) 8

/-- Font selection, lines 55 to 64: try the Helvetica truetype load, absorb
OSError and IOError and try the SFCompact truetype load, absorb OSError and
IOError again and take the built-in default.  Total by construction: no
error escapes the chain. -/
def pickFont (env : FontEnv) (fsz : ℕ) : Font :=
  match env.helvetica fsz with
  | .ok f => f
  | .error _ =>
    match env.sfcompact fsz with
    | .ok f => f
    | .error _ => env.defaultFont

/-- Drawing step one, lines 47 to 51: draw the red rounded rectangle onto
the overlay.  ImageDraw with no mode argument overwrites pixel values. -/
def rectStep (size : ℕ) (ov : ImageData) : ImageData :=
  { ov with
    px := fun x y =>
      if inRoundedRect (rectX1 size) (rectY1 size) (rectX2 size) (rectY2 size)
          (radius size) (x : ℤ) (y : ℤ)
      then BADGE_FILL else ov.px x y }

/-- Drawing step two, lines 54 to 74: pick the font, measure the DEV label
with textbbox, centre it in the badge (compensating the ascent via the bbox
top), and draw it onto the overlay.  The text anchor coordinates use true
division, hence rationals. -/
def textStep (env : FontEnv) (size : ℕ) (ov : ImageData) : ImageData :=
  let font := pickFont env (font_size size)
  let bb := font.bbox "DEV"
  let tw : ℤ := bb.x1 - bb.x0
  let th : ℤ := bb.y1 - bb.y0
  let tx : ℚ := (rectX1 size : ℚ) + ((badge_w size : ℚ) - (tw : ℚ)) / 2
  let ty : ℚ := (rectY1 size : ℚ) + ((badge_h size : ℚ) - (th : ℚ)) / 2 - (bb.y0 : ℚ)
  { ov with px := font.raster "DEV" tx ty TEXT_FILL ov.px }

/-- img.copy().convert("RGBA"), line 28: a fresh object with the same data;
since every image is modelled in RGBA the data is unchanged. -/
def convertRGBA (img : ImageData) : ImageData := img

/-- Image.new("RGBA", size, (0, 0, 0, 0)), line 43: a fully transparent
layer of the given dimensions. -/
def newRGBA (w h : ℕ) : ImageData := ⟨w, h, fun _ _ => ⟨0, 0, 0, 0⟩⟩

/-- Straight-alpha source-over blending of one pixel, as in
Image.alpha_composite; truncating division stands in for the rounding of
the library arithmetic. -/
def overPixel (src dst : RGBA) : RGBA :=
  let aScaled := src.a * 255 + dst.a * (255 - src.a)
  if aScaled = 0 then ⟨0, 0, 0, 0⟩
  else
    ⟨(src.r * src.a * 255 + dst.r * dst.a * (255 - src.a)) / aScaled,
     (src.g * src.a * 255 + dst.g * dst.a * (255 - src.a)) / aScaled,
     (src.b * src.a * 255 + dst.b * dst.a * (255 - src.a)) / aScaled,
     aScaled / 255⟩

/-- Image.alpha_composite(base, overlay), line 76: a new image with the
dimensions of the base and each pixel blended overlay-over-base. -/
def alphaComposite (base ov : ImageData) : ImageData :=
  ⟨base.width, base.height, fun x y => overPixel (ov.px x y) (base.px x y)⟩

/-- add_dev_badge, lines 26 to 76: copy and convert the input, build the
transparent overlay, draw the rounded rectangle and then the DEV label on
it, and return the alpha composite of the copy under the overlay. -/
def add_dev_badge (env : FontEnv) (img0 : ImageData) : ImageData :=
  let img := convertRGBA img0
  let size := img.width
  let overlay := textStep env size (rectStep size (newRGBA img.width img.height))
  alphaComposite img overlay

/-- A heap of image objects: references are list indices, allocation
appends.  Used to express that add_dev_badge never mutates its argument
object. -/
abbrev Store := List ImageData

/-- add_dev_badge replayed against the heap, one step per source line that
touches an image object: img.copy().convert allocates, Image.new allocates,
the two draw calls mutate the overlay object in place, alpha_composite
allocates the result.  Returns the new heap and the reference of the
result.  An invalid input reference cannot arise in the script and leaves
the heap unchanged. -/
def add_dev_badge_st (env : FontEnv) (s : Store) (ref : ℕ) : Store × ℕ :=
  match s[ref]? with
  | none => (s, ref)
  | some img0 =>
    let img := convertRGBA img0
    let s1 := s ++ [img]
    let rImg := s.length
    let s2 := s1 ++ [newRGBA img.width img.height]
    let rOv := s1.length
    let size := img.width
    let s3 := s2.set rOv (rectStep size (s2.getD rOv (newRGBA 0 0)))
    let s4 := s3.set rOv (textStep env size (s3.getD rOv (newRGBA 0 0)))
    let result := alphaComposite (s4.getD rImg img) (s4.getD rOv (newRGBA 0 0))
    (s4 ++ [result], s4.length)

/-- Filesystem state seen by main: the source icon file for each size (none
when <size>.png is absent) and the parsed source manifest (none when
Contents.json is missing or fails to decode). -/
structure FS where
  image : ℕ → Option ImageData
  contents : Option Json

/-- The fixed size list, line 23. -/
def ICON_SIZES : List ℕ := [16, 32, 64, 128, 256, 512, 1024]

/-- Console lines emitted by main, in order. -/
inductive LogLine where
  | skip (sz : ℕ)
  | okIcon (sz : ℕ)
  | okContents
  | done
  deriving Repr, DecidableEq

/-- Per-size console output of the loop in main, lines 93 to 103. -/
def iconLogs (fs : FS) : List LogLine :=
  ICON_SIZES.map (fun sz => if (fs.image sz).isSome then .okIcon sz else .skip sz)

/-- Files written by the loop in main: for each present size, the badged
image at its output path; absent sizes are skipped. -/
def iconOutputs (env : FontEnv) (fs : FS) : List (ℕ × ImageData) :=
  ICON_SIZES.filterMap (fun sz => (fs.image sz).map (fun img => (sz, add_dev_badge env img)))

/-- main, lines 90 to 109: run the per-size loop, then derive and write the
manifest.  A raise in generate_contents_json propagates (non-zero exit);
otherwise the run completes normally (exit status zero) with the console
log, the written image files and the written manifest. -/
def mainRun (env : FontEnv) (fs : FS) :
    Except PyErr (List LogLine × List (ℕ × ImageData) × Json) :=
  match generate_contents_json fs.contents with
  | .error e => .error e
  | .ok contents =>
    .ok (iconLogs fs ++ [.okContents, .done], iconOutputs env fs, contents)

/-- A concrete font with trivial metrics and a rasteriser that leaves the
layer unchanged; used to instantiate hypotheses at concrete inputs. -/
def defaultFontModel : Font := ⟨fun _ => ⟨0, 0, 0, 0⟩, fun _ _ _ _ p => p⟩

/-- A concrete environment in which both truetype loads fail. -/
def noFontEnv : FontEnv :=
  ⟨fun _ => .error .osError, fun _ => .error .osError, defaultFontModel⟩

/-- A concrete 16 by 16 input image. -/
def testImg : ImageData := ⟨16, 16, fun _ _ => ⟨10, 20, 30, 255⟩⟩

/-- A concrete filesystem: only 16.png is present, the manifest parses and
has an empty images array. -/
def fsOnly16 : FS :=
  ⟨fun sz => if sz = 16 then some testImg else none,
   some (Json.obj [("images", Json.arr [])])⟩

/- Helper lemmas about the Python dict operations. -/

theorem dictGet_dictSet_self (d : List (String × Json)) (key : String) (v : Json) :
    dictGet (dictSet d key v) key = some v := by
  induction d with
  | nil => simp [dictGet, dictSet]
  | cons head rest ih =>
    obtain ⟨k0, v0⟩ := head
    by_cases hk : k0 = key
    · simp [dictSet, dictGet, hk]
    · simp [dictSet, dictGet, hk, ih]

theorem dictGet_dictSet_ne (d : List (String × Json)) (key k : String) (v : Json)
    (hk : k ≠ key) :
    dictGet (dictSet d key v) k = dictGet d k := by
  induction d with
  | nil => simp [dictGet, dictSet, Ne.symm hk]
  | cons head rest ih =>
    obtain ⟨k0, v0⟩ := head
    by_cases h0 : k0 = key
    · subst h0; simp [dictSet, dictGet, Ne.symm hk]
    · simp [dictSet, dictGet, h0, ih]

theorem filter_dictSet (d : List (String × Json)) (key : String) (v : Json) :
    (dictSet d key v).filter (fun kv => kv.1 != key) =
      d.filter (fun kv => kv.1 != key) := by
  induction d with
  | nil => simp [dictSet]
  | cons head rest ih =>
    obtain ⟨k0, v0⟩ := head
    by_cases h0 : k0 = key
    · subst h0; simp [dictSet]
    · simp [dictSet, h0, ih]

theorem badgeEntries_map_obj (ds : List (List (String × Json))) :
    badgeEntries (ds.map Json.obj) =
      .ok (ds.map (fun d => Json.obj (dictSet d "folder" (Json.str DEV_FOLDER)))) := by
  induction ds with
  | nil => rfl
  | cons d rest ih => simp [badgeEntries, pyDict, ih]

/-- C1: for every source manifest whose images array is a list of
descriptors, generate_contents_json returns one descriptor per input
descriptor in the same order, each one the shallow copy of its input with
the folder field added or overwritten to the fixed dev path and, as the
remaining conjuncts state for every descriptor, the folder field reads the
new value, every other field reads exactly its input value, and the
sequence of non-folder fields is unchanged. -/
theorem C1_manifest_descriptors (fields : List (String × Json))
    (ds : List (List (String × Json)))
    (h : dictGet fields "images" = some (Json.arr (ds.map Json.obj))) :
    generate_contents_json (some (Json.obj fields)) =
      .ok (.obj [("images",
        .arr (ds.map (fun d => Json.obj (dictSet d "folder" (Json.str DEV_FOLDER)))))]) ∧
    (∀ d, dictGet (dictSet d "folder" (Json.str DEV_FOLDER)) "folder" =
      some (Json.str DEV_FOLDER)) ∧
    (∀ d k, k ≠ "folder" →
      dictGet (dictSet d "folder" (Json.str DEV_FOLDER)) k = dictGet d k) ∧
    (∀ d, (dictSet d "folder" (Json.str DEV_FOLDER)).filter (fun kv => kv.1 != "folder") =
      d.filter (fun kv => kv.1 != "folder")) := by
  refine ⟨?_, fun d => dictGet_dictSet_self d _ _,
    fun d k hk => dictGet_dictSet_ne d _ k _ hk,
    fun d => filter_dictSet d _ _⟩
  simp [generate_contents_json, h, pyIter, badgeEntries_map_obj]

theorem C1_manifest_descriptors_witness :
    generate_contents_json (some (Json.obj [("images", Json.arr [Json.obj
      [("size", Json.str "16x16"), ("scale", Json.str "1x"),
       ("filename", Json.str "16.png")]])])) =
      .ok (Json.obj [("images", Json.arr [Json.obj
        [("size", Json.str "16x16"), ("scale", Json.str "1x"),
         ("filename", Json.str "16.png"), ("folder", Json.str DEV_FOLDER)]])]) :=
  (C1_manifest_descriptors
    [("images", Json.arr [Json.obj
      [("size", Json.str "16x16"), ("scale", Json.str "1x"),
       ("filename", Json.str "16.png")]])]
    [[("size", Json.str "16x16"), ("scale", Json.str "1x"),
      ("filename", Json.str "16.png")]] rfl).1

/-- C2 counterexample: a source manifest with a second top-level key info
loses that key; the output object carries the single key images, so the
top-level shape of the source is not preserved. -/
theorem C2_top_level_counterexample :
    generate_contents_json (some (Json.obj [("images", Json.arr []),
      ("info", Json.obj [])])) = .ok (Json.obj [("images", Json.arr [])]) ∧
    dictGet [("images", Json.arr []), ("info", Json.obj [])] "info" =
      some (Json.obj []) ∧
    dictGet [("images", Json.arr [])] "info" = none :=
  ⟨rfl, rfl, rfl⟩

/-- C2 (amended): every manifest successfully derived by
generate_contents_json has exactly one top-level key, images; top-level
keys of the source other than images are dropped, not preserved. -/
theorem C2_output_top_level : ∀ (c : Option Json) (out : Json),
    generate_contents_json c = .ok out → topKeys out = ["images"] := by
  intro c out h
  simp only [generate_contents_json] at h
  split at h
  · exact absurd h (by simp)
  · split at h
    · split at h
      · exact absurd h (by simp)
      · split at h
        · exact absurd h (by simp)
        · split at h
          · exact absurd h (by simp)
          · injection h with h2; subst h2; rfl
    · exact absurd h (by simp)

theorem C2_output_top_level_witness :
    topKeys (Json.obj [("images", Json.arr [])]) = ["images"] :=
  C2_output_top_level (some (Json.obj [("images", Json.arr [])]))
    (Json.obj [("images", Json.arr [])]) rfl

/-- C7: when the source manifest is missing, fails to decode, or decodes to
a value without an images key, generate_contents_json raises rather than
returning a manifest, and main propagates the raise, so the run aborts with
a non-zero exit. -/
theorem C7_manifest_fatal (c : Option Json)
    (h : ∀ j, c = some j → hasImagesKey j = false) :
    isErr (generate_contents_json c) = true ∧
    ∀ (env : FontEnv) (fs : FS), fs.contents = c → isErr (mainRun env fs) = true := by
  have hg : isErr (generate_contents_json c) = true := by
    cases c with
    | none => rfl
    | some j =>
      have hj := h j rfl
      cases j with
      | obj fields =>
        cases hg2 : dictGet fields "images" with
        | none => simp [generate_contents_json, isErr, hg2]
        | some v => simp [hasImagesKey, hg2] at hj
      | null => rfl
      | bool b => rfl
      | num n => rfl
      | str s => rfl
      | arr xs => rfl
  refine ⟨hg, fun env fs hfs => ?_⟩
  cases hge : generate_contents_json c with
  | error e => simp [mainRun, hfs, hge, isErr]
  | ok v => rw [hge] at hg; exact absurd hg (by simp [isErr])

theorem C7_manifest_fatal_witness :
    isErr (generate_contents_json none) = true ∧
    isErr (mainRun noFontEnv ⟨fun _ => none, none⟩) = true :=
  ⟨(C7_manifest_fatal none (fun _ hj => Option.noConfusion hj)).1,
   (C7_manifest_fatal none (fun _ hj => Option.noConfusion hj)).2 noFontEnv
     ⟨fun _ => none, none⟩ rfl⟩

/-- C8: font selection tries the Helvetica truetype load, then the
SFCompact truetype load, then the built-in default, in that order; a failed
truetype load is absorbed by the next element of the chain, and pickFont,
being total, never lets a font error escape add_dev_badge. -/
theorem C8_font_fallback_chain (env : FontEnv) (fsz : ℕ) :
    (∀ f, env.helvetica fsz = .ok f → pickFont env fsz = f) ∧
    (∀ e f, env.helvetica fsz = .error e → env.sfcompact fsz = .ok f →
      pickFont env fsz = f) ∧
    (∀ e e2, env.helvetica fsz = .error e → env.sfcompact fsz = .error e2 →
      pickFont env fsz = env.defaultFont) := by
  refine ⟨?_, ?_, ?_⟩
  · intro f hf; simp [pickFont, hf]
  · intro e f he hf; simp [pickFont, he, hf]
  · intro e e2 he h2; simp [pickFont, he, h2]

theorem C8_font_fallback_chain_witness :
    pickFont noFontEnv 8 = noFontEnv.defaultFont :=
  (C8_font_fallback_chain noFontEnv 8).2.2 .osError .osError rfl rfl

/-- C4: add_dev_badge returns an image of exactly the width and height of
its square input; compositing the badge never resizes the canvas. -/
theorem C4_dimensions_preserved (env : FontEnv) (img : ImageData)
    (hsq : img.width = img.height) :
    (add_dev_badge env img).width = img.width ∧
    (add_dev_badge env img).height = img.height :=
  ⟨rfl, rfl⟩

theorem C4_dimensions_preserved_witness :
    (add_dev_badge noFontEnv testImg).width = testImg.width ∧
    (add_dev_badge noFontEnv testImg).height = testImg.height :=
  C4_dimensions_preserved noFontEnv testImg rfl

/-- C5: for every side length, the badge rectangle of add_dev_badge has the
stated height, width, corner radius and margin formulas, its width and
height match badge_w and badge_h, and its right and bottom edges both lie
at coordinate size minus margin, i.e. inset from the icon edges by exactly
the margin. -/
theorem C5_badge_geometry (size : ℕ) :
    badge_h size = max (size * 22 / 100) 6 ∧
    badge_w size = max (size * 42 / 100) 12 ∧
    radius size = max (badge_h size * 28 / 100) 2 ∧
    margin size = max (size * 4 / 100) 1 ∧
    rectX2 size = (size : ℤ) - margin size ∧
    rectY2 size = (size : ℤ) - margin size ∧
    rectX2 size - rectX1 size = badge_w size ∧
    rectY2 size - rectY1 size = badge_h size ∧
    rectX2 size + margin size = (size : ℤ) ∧
    rectY2 size + margin size = (size : ℤ) := by
  refine ⟨rfl, rfl, rfl, rfl, rfl, rfl, ?_, ?_, ?_, ?_⟩ <;>
    · simp only [rectX1, rectX2, rectY1, rectY2]
      omega

/-- C10: for every size in the fixed list, the badge rectangle is
non-degenerate and fully on the canvas; the minimum pixel floors never push
it outside the image or invert its corners, even at size 16. -/
theorem C10_rect_within_canvas :
    ∀ sz ∈ ICON_SIZES,
      0 ≤ rectX1 sz ∧ rectX1 sz < rectX2 sz ∧ rectX2 sz ≤ (sz : ℤ) ∧
      0 ≤ rectY1 sz ∧ rectY1 sz < rectY2 sz ∧ rectY2 sz ≤ (sz : ℤ) := by
  decide

theorem C10_rect_within_canvas_witness :
    16 ∈ ICON_SIZES ∧
    (0 ≤ rectX1 16 ∧ rectX1 16 < rectX2 16 ∧ rectX2 16 ≤ (16 : ℤ) ∧
     0 ≤ rectY1 16 ∧ rectY1 16 < rectY2 16 ∧ rectY2 16 ≤ (16 : ℤ)) :=
  ⟨by decide, C10_rect_within_canvas 16 (by decide)⟩

/-- C9: add_dev_badge never mutates its input image object: replayed
against the heap, every pre-existing reference, in particular the input
reference, still holds exactly its old image data after the call; all
drawing happens on the fresh copy and the fresh overlay. -/
theorem C9_input_not_mutated (env : FontEnv) (s : Store) (ref : ℕ)
    (h : ref < s.length) :
    ((add_dev_badge_st env s ref).1)[ref]? = s[ref]? := by
  obtain ⟨img0, h0⟩ : ∃ x, s[ref]? = some x := ⟨_, List.getElem?_eq_getElem h⟩
  simp only [add_dev_badge_st, h0]
  rw [List.getElem?_append_left (by simp; omega)]
  rw [List.getElem?_set_ne (by simp; omega)]
  rw [List.getElem?_set_ne (by simp; omega)]
  rw [List.getElem?_append_left (by simp; omega)]
  rw [List.getElem?_append_left h]
  exact h0

theorem C9_input_not_mutated_witness :
    ((add_dev_badge_st noFontEnv [testImg] 0).1)[0]? = [testImg][0]? :=
  C9_input_not_mutated noFontEnv [testImg] 0 (by decide)

/-- C6: for every size of the fixed list whose source file is absent, main
records a skip and continues without raising: provided the manifest itself
derives, the run completes with exit status zero, the skip line is logged,
no output file is produced for the missing size, and every size whose
source file exists is still processed and written. -/
theorem C6_missing_size_skipped (env : FontEnv) (fs : FS) (c : Json)
    (hc : generate_contents_json fs.contents = .ok c)
    (sz : ℕ) (hsz : sz ∈ ICON_SIZES) (hmiss : fs.image sz = none) :
    mainRun env fs = .ok (iconLogs fs ++ [.okContents, .done], iconOutputs env fs, c) ∧
    LogLine.skip sz ∈ iconLogs fs ∧
    (∀ p ∈ iconOutputs env fs, p.1 ≠ sz) ∧
    (∀ sz2 img, sz2 ∈ ICON_SIZES → fs.image sz2 = some img →
      (sz2, add_dev_badge env img) ∈ iconOutputs env fs) := by
  refine ⟨by simp [mainRun, hc], ?_, ?_, ?_⟩
  · exact List.mem_map.2 ⟨sz, hsz, by simp [hmiss]⟩
  · intro p hp
    obtain ⟨a, ha, hfa⟩ := List.mem_filterMap.1 hp
    cases hia : fs.image a with
    | none => rw [hia] at hfa; exact absurd hfa (by simp)
    | some i =>
      rw [hia] at hfa
      have hp2 : (a, add_dev_badge env i) = p := Option.some.inj hfa
      intro heq
      rw [← hp2] at heq
      have ha2 : a = sz := heq
      rw [ha2] at hia
      rw [hmiss] at hia
      exact Option.noConfusion hia
  · intro sz2 img hsz2 himg
    exact List.mem_filterMap.2 ⟨sz2, hsz2, by simp [himg]⟩

theorem C6_missing_size_skipped_witness :
    mainRun noFontEnv fsOnly16 =
      .ok (iconLogs fsOnly16 ++ [.okContents, .done],
        iconOutputs noFontEnv fsOnly16, Json.obj [("images", Json.arr [])]) ∧
    LogLine.skip 512 ∈ iconLogs fsOnly16 :=
  ⟨(C6_missing_size_skipped noFontEnv fsOnly16 _ rfl 512 (by decide) rfl).1,
   (C6_missing_size_skipped noFontEnv fsOnly16 _ rfl 512 (by decide) rfl).2.1⟩
